import Mathlib

/-!
Verification of the intent-classification and dispatch pipeline of the
Molaison Executive Assistant (src/molaison-executive-assistant.js).

The JavaScript source is shallowly embedded: each method of the
`MolaisonExecutiveAssistant` class that the pipeline uses becomes a Lean
function, the in-memory conversation log becomes an explicit
`List ConversationRecord` that is threaded through `handleChatMessage`, and
the two external HTTP calls (intent classification and free-text completion,
both `axios.post` to the text-generation service) become explicit
`RemoteCall` parameters describing the outcome of the call: network failure,
or an HTTP reply with a status code and an optional successfully parsed body.
JavaScript strings are Lean `String`s; `toLowerCase`/`includes` are modelled
character-exactly for ASCII text.
-/

namespace Molaison

/-! ## String machinery: JavaScript `includes` and `toLowerCase` -/

/-- Check that the first list is a leading segment of the second
(the core of the substring test). -/
def startsWithL : List Char → List Char → Bool
  | [], _ => true
  | _ :: _, [] => false
  | a :: as, b :: bs => a == b && startsWithL as bs

/-- Contiguous-substring test on character lists, mirroring the semantics of
JavaScript `String.prototype.includes`. -/
def hasSubL (needle : List Char) : List Char → Bool
  | [] => needle.isEmpty
  | b :: bs => startsWithL needle (b :: bs) || hasSubL needle bs

/-- Model of the JavaScript expression `hay.includes(needle)`. -/
def incl (hay needle : String) : Bool :=
  hasSubL needle.data hay.data

/-- Model of `s.toLowerCase()` (character-exact on ASCII text,
which is all the keyword table and the test messages use). -/
def jsLower (s : String) : String :=
  ⟨s.data.map Char.toLower⟩

/-! ## Data model -/

/-- The intent categories: the ten values enumerated in the classification
prompt of `analyzeIntent` (`email … general`), with `prompts` and `content`
listed separately exactly as the source switch statement treats them. -/
inductive Category where
  | email
  | calendar
  | phone
  | research
  | social
  | client_management
  | business_intelligence
  | productivity
  | prompts
  | content
  | general
deriving DecidableEq

/-- The `business` field of an intent. -/
inductive Business where
  | agency
  | ai
  | both
  | client
deriving DecidableEq

/-- The `priority` field of an intent. -/
inductive Priority where
  | low
  | medium
  | high
  | urgent
deriving DecidableEq

/-- The structured classification result returned by `analyzeIntent`.
Confidences such as `0.7` are exact rationals. -/
structure Intent where
  category : Category
  confidence : ℚ
  action : String
  business : Business
  priority : Priority
deriving DecidableEq

/-! ## Classification -/

/-- The guard on source line 401 testing `!this.config.apis.openai.key` and
equality with the placeholder sentinel.  The key is `Option String`: `none`
models an unset `OPENAI_API_KEY` environment variable, and the empty string
is falsy in JavaScript. -/
def openaiDisabled (key : Option String) : Bool :=
  match key with
  | none => true
  | some k => k == "" || k == "test_key_placeholder"

/-- Outcome of one `axios.post` call to the text-generation service:
either a network failure, or an HTTP reply carrying a status code and the
parse result of its payload (`none` when the payload does not parse into
the expected shape). -/
inductive RemoteCall (α : Type) where
  | netFail : RemoteCall α
  | reply (status : Nat) (body : Option α) : RemoteCall α

/-- The value the `await axios.post … ; JSON.parse …` sequence produces when
it does not throw: axios rejects on any status outside 2xx (its default
`validateStatus`), and parsing may fail.  `none` means the call threw. -/
def RemoteCall.result {α : Type} : RemoteCall α → Option α
  | .netFail => none
  | .reply status body => if 200 ≤ status ∧ status < 300 then body else none

/-- The keyword branch of `analyzeIntent` (source lines 403-412): the
fallback classifier used when the remote service is not configured.
Each line is one `if (lowerMessage.includes(…))` of the source, in source
order. -/
def analyzeIntentFallback (message : String) : Intent :=
  let lowerMessage := jsLower message
  if incl lowerMessage "email" then
    { category := .email, confidence := 7/10, action := "email_management", business := .both, priority := .medium }
  else if incl lowerMessage "calendar" || incl lowerMessage "schedule" then
    { category := .calendar, confidence := 7/10, action := "calendar_management", business := .both, priority := .medium }
  else if incl lowerMessage "call" || incl lowerMessage "phone" then
    { category := .phone, confidence := 7/10, action := "phone_assistance", business := .both, priority := .medium }
  else if incl lowerMessage "research" || incl lowerMessage "analyze" then
    { category := .research, confidence := 7/10, action := "research_task", business := .both, priority := .medium }
  else if incl lowerMessage "social" || incl lowerMessage "content" then
    { category := .social, confidence := 7/10, action := "social_media", business := .both, priority := .medium }
  else if incl lowerMessage "client" || incl lowerMessage "project" then
    { category := .client_management, confidence := 7/10, action := "client_assistance", business := .both, priority := .medium }
  else if incl lowerMessage "prompt" || incl lowerMessage "generate" then
    { category := .prompts, confidence := 7/10, action := "prompt_generation", business := .both, priority := .medium }
  else if incl lowerMessage "productive" || incl lowerMessage "goal" then
    { category := .productivity, confidence := 7/10, action := "productivity_coaching", business := .both, priority := .medium }
  else
    { category := .general, confidence := 6/10, action := "general_assistance", business := .both, priority := .medium }

/-- The synthetic low-confidence intent built in the `catch` block of
`analyzeIntent` (source lines 430-436). -/
def generalSyntheticIntent : Intent :=
  { category := .general, confidence := 5/10, action := "general_assistance", business := .both, priority := .medium }

/-- Model of `analyzeIntent(message, context)` (source lines 365-438).  When the
OpenAI credential is disabled the keyword fallback runs; otherwise the
remote call is made and its parsed body returned, any failure of the call
or of parsing being caught and replaced by `generalSyntheticIntent`.
The `context` argument only feeds the natural-language prompt sent to the
remote service, whose behaviour is abstracted by `remote`. -/
def analyzeIntent (key : Option String) (remote : RemoteCall Intent)
    (message : String) (context : String) : Intent :=
  if openaiDisabled key then
    analyzeIntentFallback message
  else
    match remote.result with
    | some intent => intent
    | none => generalSyntheticIntent

/-! ## Capability handlers -/

/-- JavaScript `v || d` on an optional string: `undefined`/`null` and the
empty string are falsy and select the default. -/
def orDefault (v : Option String) (d : String) : String :=
  match v with
  | none => d
  | some s => if s = "" then d else s

/-- One row of the content calendar built by `handlePromptRequest`
(source lines 314-350). -/
structure CalendarEntry where
  day : String
  theme : String
  content : String
  postIdea : String
  optimalTime : String
deriving DecidableEq

/-- A capability output: either a plain string, or the structured objects
`handlePromptRequest` returns (`{response, prompts, promptType}` or
`{response, calendar}`); the `caption` slot exists because the envelope
builder probes for it (line 275). -/
inductive Response where
  | text (s : String) : Response
  | obj (response : String) (prompts : Option (List String))
      (promptType : Option String) (calendar : Option (List CalendarEntry))
      (caption : Option String) : Response
deriving DecidableEq

/-- Model of line 272: when the capability output is an object, its
`response` field; otherwise the plain string itself. -/
def Response.respText : Response → String
  | .text s => s
  | .obj r _ _ _ _ => r

/-- Model of line 273: the optional `prompts` field of an object output. -/
def Response.getPrompts : Response → Option (List String)
  | .text _ => none
  | .obj _ p _ _ _ => p

/-- Model of line 274: the optional `calendar` field of an object output. -/
def Response.getCalendar : Response → Option (List CalendarEntry)
  | .text _ => none
  | .obj _ _ _ c _ => c

/-- Model of line 275: the optional `caption` field of an object output. -/
def Response.getCaption : Response → Option String
  | .text _ => none
  | .obj _ _ _ _ c => c

/-- The five high-end-image templates of `billyGeneTemplates`
(source lines 296-302), each interpolating the business context, with the
default string used when it is absent. -/
def billyGeneTemplates (bc : Option String) : List String :=
  [ "Create a cinematic, high-budget commercial style image of " ++ orDefault bc "your business" ++ ". Shot with professional lighting, shallow depth of field, and dramatic color grading. Include luxury brand aesthetics, premium materials, and sophisticated composition that conveys exclusivity and high value for business owners."
  , "Professional lifestyle photography showing business owners using " ++ orDefault bc "your business" ++ " services in an aspirational setting. Clean, modern aesthetic with natural lighting. Show the transformation and elevated lifestyle this service enables. Include authentic human emotion and premium environment details."
  , "Split-screen comparison image showing \x27before and after\x27 or \x27problem vs solution\x27 for business owners. Left side shows business frustration/difficulty, right side shows ease/success with " ++ orDefault bc "your business" ++ ". Professional photography with clear visual storytelling and emotional impact."
  , "Professional headshot/environment showing expertise and credibility around " ++ orDefault bc "your business" ++ ". Include certifications, awards, professional setting, and visual elements that establish authority for business owners. Warm, trustworthy lighting with confidence-inspiring composition."
  , "Dynamic collage showing multiple happy business owners using " ++ orDefault bc "your business" ++ ". Include diverse demographics, genuine expressions, and results/outcomes. Professional montage style with consistent branding and positive energy throughout." ]

/-- The fixed Monday-to-Friday `contentThemes` calendar
(source lines 314-350). -/
def contentThemes (bc : Option String) : List CalendarEntry :=
  [ { day := "Monday", theme := "Motivation Monday"
    , content := "Inspirational content and success stories for business owners using " ++ orDefault bc "your business"
    , postIdea := "Success story: How business owners transformed their results with " ++ orDefault bc "your business"
    , optimalTime := "8:00 AM" }
  , { day := "Tuesday", theme := "Tips Tuesday"
    , content := "Educational content and industry insights for business owners"
    , postIdea := "5 tips business owners need to know about " ++ orDefault bc "your services"
    , optimalTime := "9:00 AM" }
  , { day := "Wednesday", theme := "Wisdom Wednesday"
    , content := "Expert advice and problem-solving for business owners"
    , postIdea := "Industry secrets business owners should know about " ++ orDefault bc "your services"
    , optimalTime := "11:00 AM" }
  , { day := "Thursday", theme := "Throwback Thursday"
    , content := "Case studies and testimonials from business owners"
    , postIdea := "Case study: Business owner success story with " ++ orDefault bc "your business"
    , optimalTime := "2:00 PM" }
  , { day := "Friday", theme := "Feature Friday"
    , content := "Service highlights and demos for business owners"
    , postIdea := "Feature spotlight: How " ++ orDefault bc "your business" ++ " helps business owners"
    , optimalTime := "3:00 PM" } ]

/-- Static clarifying question returned by the final `else` of
`handlePromptRequest`, and also by its `catch` block (lines 357 and 361). -/
def promptClarifyText : String :=
  "I can help you with AI prompt generation, content calendars, and viral captions. What specific type of content would you like me to create?"

/-- Model of `handlePromptRequest(message, context, businessContext)` (source lines
290-363): sub-dispatch purely on substring tests over the lowercased
message, in source order (the image-prompt test, including the bare
keyword `generate`, comes first).  Nothing in the `try` body can throw,
so the `catch` branch is unreachable and not modelled. -/
def handlePromptRequest (message : String) (context : String)
    (businessContext : Option String) : Response :=
  if incl (jsLower message) "image prompt" || incl (jsLower message) "high-end image"
      || incl (jsLower message) "generate" then
    .obj ("Here are 5 professional high-end image prompts for " ++ orDefault businessContext "your business" ++ ":")
      (some (billyGeneTemplates businessContext)) (some "high-end-image") none none
  else if incl (jsLower message) "content calendar" || incl (jsLower message) "weekly calendar" then
    .obj ("Here\x27s your weekly content calendar for " ++ orDefault businessContext "your business" ++ ":")
      none none (some (contentThemes businessContext)) none
  else
    .text promptClarifyText

/-- The canned apology of the `catch` block of `handleGeneralRequest`
(source line 476). -/
def generalApologyText : String :=
  "I understand you need assistance. Let me help you with that. Could you provide more specific details about what you\x27d like me to handle?"

/-- The configured-or-fallback text returned by `handleGeneralRequest` when
the OpenAI credential is disabled (source line 443). -/
def generalUnconfiguredText (message : String) : String :=
  "I understand you need assistance with: \"" ++ message ++ "\". As your executive assistant for Molaison Agency and Molaison AI, I\x27m ready to help with business management, client projects, and various tasks. However, advanced AI features require API configuration. Please let me know what specific assistance you need!"

/-- Model of `handleGeneralRequest(message, context)` (source lines 440-478).  With
the credential disabled the canned text is returned without any network
call; otherwise the completion call is made and its text returned, any
failure being caught locally and replaced with the apology.  `context`
only feeds the prompt sent to the remote service, abstracted by
`completion`. -/
def handleGeneralRequest (key : Option String) (completion : RemoteCall String)
    (message : String) (context : String) : String :=
  if openaiDisabled key then
    generalUnconfiguredText message
  else
    match completion.result with
    | some text => text
    | none => generalApologyText

/-- Model of `EmailManager.handleRequest` (source line 1253). -/
def EmailManager.handleRequest (intent : Intent) (message : String) : String :=
  "I\x27ll help you manage your emails for both Molaison Agency and Molaison AI. What specific email task would you like me to handle?"

/-- Model of `CalendarAssistant.handleRequest` (source line 1259). -/
def CalendarAssistant.handleRequest (intent : Intent) (message : String) : String :=
  "I can help you schedule appointments, make reservations, and manage your calendar across both businesses. What would you like me to schedule?"

/-- Model of `PhoneAssistant.handleRequest` (source line 1269). -/
def PhoneAssistant.handleRequest (intent : Intent) (message : String) : String :=
  "I can make calls on your behalf for client outreach, follow-ups, or business development. Who would you like me to call?"

/-- Model of `ResearchAssistant.handleRequest` (source line 1279). -/
def ResearchAssistant.handleRequest (intent : Intent) (message : String) : String :=
  "I\x27ll conduct comprehensive research using Perplexity AI. What topic or competitor would you like me to research?"

/-- Model of `LifeCoach.handleRequest` (source line 1285). -/
def LifeCoach.handleRequest (intent : Intent) (message : String) : String :=
  "As your productivity coach, I can help you optimize your time, set goals, and balance running both Molaison Agency and Molaison AI. What area would you like to focus on?"

/-- Model of `SocialMediaManager.handleRequest` (source line 1291). -/
def SocialMediaManager.handleRequest (intent : Intent) (message : String) : String :=
  "I\x27ll manage social media for both your brands. Would you like me to create content, schedule posts, or analyze engagement?"

/-- Model of `ClientProjectManager.handleRequest` (source line 1309). -/
def ClientProjectManager.handleRequest (intent : Intent) (message : String) : String :=
  "I\x27ll help manage your client projects and custom builds. What project updates or new client work do you need help with?"

/-- Model of `BusinessIntelligence.handleRequest` (source line 1315). -/
def BusinessIntelligence.handleRequest (intent : Intent) (message : String)
    (businessContext : Option String) : String :=
  "I\x27ll analyze business performance for both Molaison Agency and Molaison AI. What metrics or insights do you need?"

/-! ## Conversation log -/

/-- One record of `this.db.conversations` (source lines 560-567). -/
structure ConversationRecord where
  id : String
  message : String
  response : Response
  intent : Intent
  timestamp : Nat
  business : Business
deriving DecidableEq

/-- Model of `logConversation(message, response, intent)` (source lines 559-573):
push the new record, then `slice(-1000)` once the length exceeds 1000
(keep only the most recent 1000 records). -/
def logConversation (db : List ConversationRecord) (rec : ConversationRecord) :
    List ConversationRecord :=
  let db2 := db ++ [rec]
  if 1000 < db2.length then db2.drop (db2.length - 1000) else db2

/-! ## Dispatcher -/

/-- The JSON envelope assembled by `handleChatMessage` (success branch lines
270-278, error branch lines 282-286).  Absent JSON keys are `none`. -/
structure Envelope where
  success : Bool
  response : Option String := none
  prompts : Option (List String) := none
  calendar : Option (List CalendarEntry) := none
  caption : Option String := none
  intent : Option Category := none
  timestamp : Option Nat := none
  error : Option String := none
  fallback : Option String := none
deriving DecidableEq

/-- The parsed request body `{ message, context, businessContext }`
(source line 223). -/
structure ChatBody where
  message : String
  context : String
  businessContext : Option String

/-- Outcomes of the two possible remote calls made during one dispatch:
the classification call of `analyzeIntent` and the free-text completion
call of `handleGeneralRequest`. -/
structure Env where
  classify : RemoteCall Intent
  completion : RemoteCall String

/-- The failure envelope of the top-level `catch` of `handleChatMessage`
(source lines 282-286). -/
def dispatchFailureEnvelope : Envelope :=
  { success := false
  , error := some "Failed to process message"
  , fallback := some "I\x27m having trouble processing that request. Could you please rephrase or try again?" }

/-- Model of `handleChatMessage(req, res)` (source lines 221-288): classify, switch
on the category to the bound capability, log the conversation, and emit the
normalized success envelope; the returned pair also carries the new log
state.  A request with no parsable body (`req.body` undefined) makes the
destructuring on line 223 throw, which the top-level `catch` converts to
the failure envelope without touching the log — the single uncaught throw
site of steps 1-4 in the source. -/
def handleChatMessage (key : Option String) (env : Env) (body : Option ChatBody)
    (db : List ConversationRecord) (newId : String) (now : Nat) :
    Envelope × List ConversationRecord :=
  match body with
  | none => (dispatchFailureEnvelope, db)
  | some b =>
    let intent := analyzeIntent key env.classify b.message b.context
    let response : Response :=
      match intent.category with
      | .email => .text (EmailManager.handleRequest intent b.message)
      | .calendar => .text (CalendarAssistant.handleRequest intent b.message)
      | .phone => .text (PhoneAssistant.handleRequest intent b.message)
      | .research => .text (ResearchAssistant.handleRequest intent b.message)
      | .social => .text (SocialMediaManager.handleRequest intent b.message)
      | .client_management => .text (ClientProjectManager.handleRequest intent b.message)
      | .business_intelligence => .text (BusinessIntelligence.handleRequest intent b.message b.businessContext)
      | .productivity => .text (LifeCoach.handleRequest intent b.message)
      | .prompts => handlePromptRequest b.message b.context b.businessContext
      | .content => handlePromptRequest b.message b.context b.businessContext
      | .general => .text (handleGeneralRequest key env.completion b.message b.context)
    let db2 := logConversation db
      { id := newId, message := b.message, response := response
      , intent := intent, timestamp := now, business := intent.business }
    ({ success := true
     , response := some response.respText
     , prompts := response.getPrompts
     , calendar := response.getCalendar
     , caption := response.getCaption
     , intent := some intent.category
     , timestamp := some now }, db2)

/-! ## Reference definition of the fallback classifier

Built from the words of the specification (section 4.1): an ordered list of
keyword sets, one per category, searched case-insensitively for a substring
of the message, first match winning; every match yields confidence 0.7,
business both, priority medium, and no match yields general with
confidence 0.6.  The free-text action labels, which the specification
leaves open, are taken from the source. -/

/-- The ordered keyword table of specification section 4.1:
email, calendar/schedule, call/phone, research/analyze, social/content,
client/project, prompt/generate, productive/goal. -/
def specKeywordTable : List (List String × Category × String) :=
  [ (["email"], Category.email, "email_management")
  , (["calendar", "schedule"], Category.calendar, "calendar_management")
  , (["call", "phone"], Category.phone, "phone_assistance")
  , (["research", "analyze"], Category.research, "research_task")
  , (["social", "content"], Category.social, "social_media")
  , (["client", "project"], Category.client_management, "client_assistance")
  , (["prompt", "generate"], Category.prompts, "prompt_generation")
  , (["productive", "goal"], Category.productivity, "productivity_coaching") ]

/-- First entry of the table one of whose keywords occurs in the lowercased
message; earlier entries take precedence. -/
def firstKeywordMatch : List (List String × Category × String) → String →
    Option (Category × String)
  | [], _ => none
  | (kws, cat, act) :: rest, low =>
    if kws.any (fun k => incl low k) then some (cat, act) else firstKeywordMatch rest low

/-- The reference fallback classifier, following the words of
specification section 4.1. -/
def referenceClassify (message : String) : Intent :=
  match firstKeywordMatch specKeywordTable (jsLower message) with
  | some (cat, act) =>
    { category := cat, confidence := 7/10, action := act, business := .both, priority := .medium }
  | none =>
    { category := .general, confidence := 6/10, action := "general_assistance", business := .both, priority := .medium }

/-! ## Concrete probes used by witnesses -/

/-- A concrete intent used by witnesses. -/
def probeIntent : Intent := generalSyntheticIntent

/-- A concrete conversation record used by witnesses. -/
def probeRecord : ConversationRecord :=
  { id := "w0", message := "m", response := .text "r", intent := probeIntent
  , timestamp := 0, business := .both }

/-! ## Claims -/

/-- Claim C1: for every message, the fallback classifier (the keyword branch
of analyzeIntent) is a total, deterministic function equal to the reference
definition built from the spec: case-insensitive substring search over the
ordered keyword list email, calendar/schedule, call/phone, research/analyze,
social/content, client/project, prompt/generate, productive/goal, first
match winning, every match yielding confidence 0.7, business both, priority
medium, and a no-match message yielding category general with
confidence 0.6. -/
theorem fallbackClassifier_eq_reference (message : String) :
    analyzeIntentFallback message = referenceClassify message := by
  unfold analyzeIntentFallback referenceClassify
  dsimp only
  simp only [specKeywordTable, firstKeywordMatch, List.any_cons, List.any_nil, Bool.or_false]
  split_ifs <;> rfl

/-- Claim C2: for every message and context, when the remote classification
call fails for any reason (transport error, non-2xx status, or a payload
that does not parse as an Intent — the cases in which RemoteCall.result is
none), analyzeIntent does not raise and returns exactly the synthetic
intent with category general, confidence 0.5, action general_assistance,
business both, priority medium. -/
theorem analyzeIntent_remote_failure_synthetic (key : String)
    (remote : RemoteCall Intent) (message context : String)
    (hkey : openaiDisabled (some key) = false) (hfail : remote.result = none) :
    analyzeIntent (some key) remote message context =
      { category := .general, confidence := 5/10, action := "general_assistance"
      , business := .both, priority := .medium } := by
  unfold analyzeIntent
  rw [hkey, hfail]
  rfl

/-- Witness for claim C2 at a concrete configured key and a transport
failure. -/
theorem analyzeIntent_remote_failure_synthetic_witness :
    openaiDisabled (some "sk-live-key") = false ∧
    analyzeIntent (some "sk-live-key") RemoteCall.netFail "Hello there" "" =
      { category := .general, confidence := 5/10, action := "general_assistance"
      , business := .both, priority := .medium } :=
  ⟨by decide,
   analyzeIntent_remote_failure_synthetic "sk-live-key" RemoteCall.netFail
     "Hello there" "" (by decide) rfl⟩

/-- Claim C3: the conversation log never exceeds 1000 records — one append
via logConversation keeps a log of length at most 1000 at length at most
1000, and appending to a log already at length 1000 evicts the oldest
record, leaving the sliding window of the most recent 1000 records. -/
theorem conversationLog_bounded_sliding_window (db : List ConversationRecord)
    (rec : ConversationRecord) :
    (db.length ≤ 1000 → (logConversation db rec).length ≤ 1000) ∧
    (db.length = 1000 → logConversation db rec = db.tail ++ [rec]) := by
  constructor
  · intro h
    unfold logConversation
    dsimp only
    split
    · simp only [List.length_drop]
      omega
    · simp only [List.length_append, List.length_singleton] at *
      omega
  · intro h
    cases db with
    | nil => simp at h
    | cons a as =>
      unfold logConversation
      dsimp only
      have hlen : ((a :: as) ++ [rec]).length = 1001 := by
        simp only [List.length_append, List.length_singleton, h]
      rw [if_pos (by omega), hlen]
      rfl

/-- Witness for claim C3 at a concrete log of exactly 1000 records. -/
theorem conversationLog_bounded_sliding_window_witness :
    (logConversation (List.replicate 1000 probeRecord) probeRecord).length ≤ 1000 ∧
    logConversation (List.replicate 1000 probeRecord) probeRecord =
      (List.replicate 1000 probeRecord).tail ++ [probeRecord] :=
  ⟨(conversationLog_bounded_sliding_window (List.replicate 1000 probeRecord) probeRecord).1
      (le_of_eq (List.length_replicate 1000 probeRecord)),
   (conversationLog_bounded_sliding_window (List.replicate 1000 probeRecord) probeRecord).2
      (List.length_replicate 1000 probeRecord)⟩

/-- Claim C4: for every dispatch in which an exception escapes steps 1-4
uncaught (in the source the single such site is the destructuring of a
missing request body), the dispatcher returns the failure envelope with
success false, the generic error label and the apology fallback text, and
the conversation log is unchanged. -/
theorem dispatch_fatal_error_envelope_log_unchanged (key : Option String)
    (env : Env) (db : List ConversationRecord) (newId : String) (now : Nat) :
    handleChatMessage key env none db newId now = (dispatchFailureEnvelope, db) := rfl

/-- Claim C5 counterexample: with the message given by the claim,
handlePromptRequest returns the image-prompt object and no calendar at all,
because the bare keyword generate matches the image-prompt rule, which is
tested before the content-calendar rule. -/
theorem promptRequest_generate_calendar_cex :
    (handlePromptRequest "generate a content calendar" "" (some "Acme")).getCalendar = none ∧
    (handlePromptRequest "generate a content calendar" "" (some "Acme")).getPrompts =
      some (billyGeneTemplates (some "Acme")) := by
  exact ⟨rfl, rfl⟩

/-- Claim C5 as amended: given a message matching the calendar rule but not
the image-prompt rule, here the message that says create instead of
generate, with businessContext Acme, handlePromptRequest returns a
structured result containing a calendar with exactly 5 entries, Monday
through Friday, each entry having a non-empty postIdea string that
interpolates Acme. -/
theorem promptRequest_calendar_amended :
    ((handlePromptRequest "create a content calendar" "" (some "Acme")).getCalendar.getD []).length = 5 ∧
    ((handlePromptRequest "create a content calendar" "" (some "Acme")).getCalendar.getD []).map CalendarEntry.day
      = ["Monday", "Tuesday", "Wednesday", "Thursday", "Friday"] ∧
    ∀ e ∈ (handlePromptRequest "create a content calendar" "" (some "Acme")).getCalendar.getD [],
      e.postIdea ≠ "" ∧ incl e.postIdea "Acme" = true := by
  refine ⟨rfl, rfl, ?_⟩
  decide

/-- Claim C6: when the invoked capability fails internally — in the source
the only failing operation inside a capability is the remote completion
call of the general handler, whose failure is caught locally — the apology
string is substituted as the response and the dispatch envelope still
reports success true. -/
theorem capability_failure_recovered_success (key : String) (env : Env)
    (b : ChatBody) (db : List ConversationRecord) (newId : String) (now : Nat)
    (hkey : openaiDisabled (some key) = false)
    (hcat : (analyzeIntent (some key) env.classify b.message b.context).category = .general)
    (hfail : env.completion.result = none) :
    (handleChatMessage (some key) env (some b) db newId now).1.success = true ∧
    (handleChatMessage (some key) env (some b) db newId now).1.response =
      some generalApologyText := by
  unfold handleChatMessage
  dsimp only
  rw [hcat]
  unfold handleGeneralRequest
  rw [hkey, hfail]
  exact ⟨rfl, rfl⟩

/-- Witness for claim C6: concrete dispatch in which classification returns
a general intent and the completion call then fails on the network. -/
theorem capability_failure_recovered_success_witness :
    openaiDisabled (some "sk-live-key") = false ∧
    (analyzeIntent (some "sk-live-key") (RemoteCall.reply 200 (some probeIntent)) "please assist" "").category = .general ∧
    (RemoteCall.netFail : RemoteCall String).result = none ∧
    (handleChatMessage (some "sk-live-key") ⟨RemoteCall.reply 200 (some probeIntent), RemoteCall.netFail⟩
        (some ⟨"please assist", "", none⟩) [] "id-2" 7).1.success = true ∧
    (handleChatMessage (some "sk-live-key") ⟨RemoteCall.reply 200 (some probeIntent), RemoteCall.netFail⟩
        (some ⟨"please assist", "", none⟩) [] "id-2" 7).1.response = some generalApologyText := by
  refine ⟨by decide, rfl, rfl, ?_⟩
  exact capability_failure_recovered_success "sk-live-key"
    ⟨RemoteCall.reply 200 (some probeIntent), RemoteCall.netFail⟩
    ⟨"please assist", "", none⟩ [] "id-2" 7 (by decide) rfl rfl

/-- Claim C7: for every message, when the classification credential is
absent or equals the placeholder sentinel, analyzeIntent returns the
fallback classifier result, and the result does not depend on the remote
service in any way (the theorem holds for every remote outcome, so the
remote branch is unreachable under this precondition). -/
theorem analyzeIntent_disabled_short_circuit (key : Option String)
    (remote : RemoteCall Intent) (message context : String)
    (h : openaiDisabled key = true) :
    analyzeIntent key remote message context = analyzeIntentFallback message := by
  unfold analyzeIntent
  rw [h]
  rfl

/-- Witness for claim C7 at the placeholder sentinel, with a remote outcome
that would have produced a different intent had it been consulted. -/
theorem analyzeIntent_disabled_short_circuit_witness :
    openaiDisabled (some "test_key_placeholder") = true ∧
    analyzeIntent (some "test_key_placeholder") (RemoteCall.reply 200 (some probeIntent)) "check my email" "" =
      analyzeIntentFallback "check my email" :=
  ⟨by decide,
   analyzeIntent_disabled_short_circuit (some "test_key_placeholder")
     (RemoteCall.reply 200 (some probeIntent)) "check my email" "" (by decide)⟩

/-- Claim C8: end-to-end with no classifier configured, dispatching the
message about scheduling a call yields intent category calendar (the
schedule keyword matches before the call keyword in the fallback precedence
order) and the envelope response is the calendar capability canned text. -/
theorem dispatch_schedule_call_calendar :
    (handleChatMessage none ⟨RemoteCall.netFail, RemoteCall.netFail⟩
        (some ⟨"I need to schedule a call", "", none⟩) [] "id-1" 0).1 =
      { success := true
      , response := some "I can help you schedule appointments, make reservations, and manage your calendar across both businesses. What would you like me to schedule?"
      , intent := some .calendar
      , timestamp := some 0 } := by
  rfl

/-- Claim C9: dispatching the empty message with no classifier configured
does not throw (the dispatcher is a total function): classification matches
no keyword and yields category general, and the envelope carries success
true with the general capability configured-or-fallback text. -/
theorem dispatch_empty_message_general :
    (handleChatMessage none ⟨RemoteCall.netFail, RemoteCall.netFail⟩
        (some ⟨"", "", none⟩) [] "id-1" 0).1 =
      { success := true
      , response := some (generalUnconfiguredText "")
      , intent := some .general
      , timestamp := some 0 } := by
  rfl

/-- Claim C10 (implicit): for every message the fallback classifier result
has business both, priority medium and a non-empty action label, and in the
no-keyword-match case (for example the empty message) the code additionally
returns action general_assistance, business both and priority medium
alongside the category general and confidence 0.6 fixed by the spec. -/
theorem fallback_business_priority_action_invariant (message : String) :
    ((analyzeIntentFallback message).business = .both ∧
     (analyzeIntentFallback message).priority = .medium ∧
     (analyzeIntentFallback message).action ≠ "") ∧
    analyzeIntentFallback "" =
      { category := .general, confidence := 6/10, action := "general_assistance"
      , business := .both, priority := .medium } := by
  constructor
  · unfold analyzeIntentFallback
    dsimp only
    split_ifs <;> exact ⟨rfl, rfl, by decide⟩
  · rfl

end Molaison
